import Mathlib

set_option maxRecDepth 8192

/-! Shallow embedding of the JavaScript reflection and value-marshalling glue
of this repository: the reflection helpers getWasmPtr and getTypeJs, the two
variants of the value classifier handleAsValue, the cached linear-memory view
getUint8Memory0, and the string stager fillAsValueString.  Fragment part_000
holds the encoding classifier together with the memory-view cache and the
stager; fragment part_001 holds a classifier variant without the encoding
side effect; reflection.js holds the reflection helpers and the message
constants. -/

/-- Runtime kinds distinguished by the JavaScript typeof operator.  The source
compares typeof results against the string literals for undefined, object,
number, boolean, bigint, string, symbol and function; that comparison is
embedded as equality on this enumeration. -/
inductive JsTypeof where
  | undefined
  | object
  | number
  | boolean
  | bigint
  | string
  | symbol
  | function
deriving DecidableEq, Repr

/-- Host JavaScript values as the glue can observe them.  Numbers are modelled
at integral precision (Int): every numeric value the fragment manipulates
(type tags, pointers, byte lengths, masked bits) is an integer, and no claim
depends on non-integral IEEE-754 behaviour.  Objects are association lists of
named fields; func and symbol are the two remaining typeof kinds, which match
none of the classifier predicates. -/
inductive JSValue where
  | undef
  | null
  | num (n : Int)
  | bool (b : Bool)
  | bigint (n : Int)
  | str (s : String)
  | arr (elems : List JSValue)
  | obj (fields : List (String × JSValue))
  | func
  | symbol

/-- Result of the JavaScript typeof operator on each modelled value; typeof
null and typeof of an array are both the object kind. -/
def jsTypeof : JSValue → JsTypeof
  | JSValue.undef => JsTypeof.undefined
  | JSValue.null => JsTypeof.object
  | JSValue.num _ => JsTypeof.number
  | JSValue.bool _ => JsTypeof.boolean
  | JSValue.bigint _ => JsTypeof.bigint
  | JSValue.str _ => JsTypeof.string
  | JSValue.arr _ => JsTypeof.object
  | JSValue.obj _ => JsTypeof.object
  | JSValue.func => JsTypeof.function
  | JSValue.symbol => JsTypeof.symbol

/-- Test embedded for the strict comparison of a value against undefined. -/
def isUndef : JSValue → Bool
  | JSValue.undef => true
  | _ => false

/-- Test embedded for the strict comparison of a value against null. -/
def isNull : JSValue → Bool
  | JSValue.null => true
  | _ => false

/-- Embedding of Array.isArray. -/
def isArray : JSValue → Bool
  | JSValue.arr _ => true
  | _ => false

/-- Numeric value of a number; consulted only under a guard that already
established the number kind, so the default branch is never reached there. -/
def jsNumberValue : JSValue → Int
  | JSValue.num n => n
  | _ => 0

/-- Boolean value of a boolean; consulted only under the boolean guard. -/
def jsBoolValue : JSValue → Bool
  | JSValue.bool b => b
  | _ => false

/-- Integer value of a bigint; consulted only under the bigint guard. -/
def jsBigIntValue : JSValue → Int
  | JSValue.bigint n => n
  | _ => 0

/-- String value of a string; consulted only under the string guard. -/
def jsStringValue : JSValue → String
  | JSValue.str s => s
  | _ => ""

/-- Failure modes of the embedded fragment.  The notWasmObject constructor
carries the message of the Error thrown by getWasmPtr.  The constructor
typeErrorFieldAccess models the TypeError JavaScript raises on property
access through null or undefined.  noBufferedString models the TypeError
fillAsValueString raises when it reads the length of the cleared (null)
handoff buffer.  referenceErrorWasm models the ReferenceError raised when
the staleness check of getUint8Memory0 reads the free variable named wasm
and no binding of that name exists.  rangeError models the RangeError of
TypedArray set when the source does not fit the destination window. -/
inductive JsError where
  | notWasmObject (msg : String)
  | typeErrorFieldAccess
  | noBufferedString
  | referenceErrorWasm
  | rangeError
deriving DecidableEq, Repr

/-- Message constant NOT_WASM_OBJ of reflection.js. -/
def NOT_WASM_OBJ : String := "provided reference is not a WebAssembly object"

/-- Field-name constant JS_PTR of reflection.js. -/
def JS_PTR : String := "__wbg_ptr"

/-- Lookup of a named field in the association list of an object; JavaScript
yields undefined for an absent field. -/
def lookupField (fields : List (String × JSValue)) (k : String) : JSValue :=
  match fields.find? (fun p => p.1 == k) with
  | some p => p.2
  | none => JSValue.undef

/-- Property read target[k] as the source performs it: a TypeError on null or
undefined, the stored field (or undefined) on an object, and undefined on
every other value, whose primitive wrapper carries no custom fields and none
of whose built-in fields is consulted by this fragment. -/
def jsGetField (target : JSValue) (k : String) : Except JsError JSValue :=
  match target with
  | JSValue.undef => Except.error JsError.typeErrorFieldAccess
  | JSValue.null => Except.error JsError.typeErrorFieldAccess
  | JSValue.obj fields => Except.ok (lookupField fields k)
  | _ => Except.ok JSValue.undef

/-- Translation of getWasmPtr of reflection.js: read the JS_PTR field, throw
an Error with the NOT_WASM_OBJ message unless the field holds a number, and
return the number otherwise. -/
def getWasmPtr (target : JSValue) : Except JsError Int :=
  match jsGetField target JS_PTR with
  | Except.error e => Except.error e
  | Except.ok ptr =>
    if jsTypeof ptr ≠ JsTypeof.number then
      Except.error (JsError.notWasmObject NOT_WASM_OBJ)
    else
      Except.ok (jsNumberValue ptr)

/-- Embedding of the JavaScript expression tag & 0xff on an integral number:
ToInt32 followed by the 32-bit bitwise and against 0xff keeps exactly the low
8 bits of the integer, which is its remainder modulo 2 ^ 8. -/
def jsAnd0xff (n : Int) : Int := n % 256

/-- Translation of getTypeJs of reflection.js: read the type field; if it
holds a number return that number masked with 0xff, else return 255. -/
def getTypeJs (target : JSValue) : Except JsError Int :=
  match jsGetField target ("type") with
  | Except.error e => Except.error e
  | Except.ok tag =>
    if jsTypeof tag = JsTypeof.number then
      Except.ok (jsAnd0xff (jsNumberValue tag))
    else
      Except.ok 255

/-- UTF-8 bytes of one code point, as TextEncoder produces them.  Lean chars
are scalar values, exactly the code points a JavaScript string free of lone
surrogates encodes. -/
def utf8EncodeChar (c : Char) : List Nat :=
  let n := c.toNat
  if n < 128 then [n]
  else if n < 2048 then [192 + n / 64, 128 + n % 64]
  else if n < 65536 then [224 + n / 4096, 128 + (n / 64) % 64, 128 + n % 64]
  else [240 + n / 262144, 128 + (n / 4096) % 64, 128 + (n / 64) % 64, 128 + n % 64]

/-- Embedding of cachedTextEncoder.encode: the UTF-8 byte sequence of a
string. -/
def utf8Encode (s : String) : List Nat :=
  s.data.flatMap utf8EncodeChar

/-- Embedding of the JavaScript conversion Number(b) applied to a bigint.
The conversion is exact for every magnitude below 2 ^ 53; rounding beyond
the double mantissa is not modelled, and no claim depends on it. -/
def numberOfBigInt (n : Int) : Int := n

/-- Embedding of the JavaScript expression ptr_raw >>> 0: the operand reduced
to an unsigned 32-bit integer. -/
def jsToUint32 (n : Int) : Nat := (n % 4294967296).toNat

/-- Mutable module state of fragment part_000 together with the linear-memory
environment it runs against.  lastStringBuffer is the single-slot handoff
buffer (null encoded as none).  cachedUint8Memory0 records the identity of
the ArrayBuffer the cached Uint8Array view wraps (none while the cache is
null).  wasmGlobalBound tells whether the enclosing environment binds the
free variable named wasm that the staleness check of getUint8Memory0 reads;
the repository itself declares no such binding, and when one is present it
is taken to denote the same module as the global __wasm handle.  memBufferId
is the identity of the current backing ArrayBuffer of the module memory and
memData its bytes; growth replaces the buffer and so changes memBufferId. -/
structure GlueState where
  lastStringBuffer : Option (List Nat)
  cachedUint8Memory0 : Option Nat
  wasmGlobalBound : Bool
  memBufferId : Nat
  memData : List Nat
deriving DecidableEq, Repr

/-- Translation of getUint8Memory0 of part_000.  When the cache is null the
disjunction short-circuits and the view is rebuilt from the global __wasm
handle.  Otherwise the condition evaluates the free variable named wasm: the
block-scoped declaration inside the if body is not visible there, so the
lookup reaches the enclosing environment and raises a ReferenceError when no
such binding exists; when one exists it denotes the module, the comparison
is against the current buffer identity, and a stale view is rebuilt. -/
def getUint8Memory0 (st : GlueState) : Except JsError (Nat × GlueState) :=
  match st.cachedUint8Memory0 with
  | none =>
    Except.ok (st.memBufferId, { st with cachedUint8Memory0 := some st.memBufferId })
  | some cached =>
    if st.wasmGlobalBound then
      if cached ≠ st.memBufferId then
        Except.ok (st.memBufferId, { st with cachedUint8Memory0 := some st.memBufferId })
      else
        Except.ok (cached, st)
    else
      Except.error JsError.referenceErrorWasm

/-- Block write of src into data at position ptr, the effect of the
subarray-and-set of the source when the window fits. -/
def writeBytes (data : List Nat) (ptr : Nat) (src : List Nat) : List Nat :=
  data.take ptr ++ src ++ data.drop (ptr + src.length)

/-- Translation of fillAsValueString of part_000: reduce the raw pointer with
an unsigned shift, obtain the memory view, read the buffered string (a
TypeError, recorded as noBufferedString, when the slot is null), copy its
bytes into the window starting at the pointer (a RangeError when the source
does not fit), and clear the slot.  On every successful path of
getUint8Memory0 the returned view wraps the current backing buffer (lemma
getUint8Memory0_view_current below), so the copy lands in memData. -/
def fillAsValueString (ptrRaw : Int) (st : GlueState) : Except JsError GlueState :=
  let ptr : Nat := jsToUint32 ptrRaw
  match getUint8Memory0 st with
  | Except.error e => Except.error e
  | Except.ok (_view, st1) =>
    match st1.lastStringBuffer with
    | none => Except.error JsError.noBufferedString
    | some buf =>
      if ptr + buf.length ≤ st1.memData.length then
        Except.ok { st1 with
          memData := writeBytes st1.memData ptr buf,
          lastStringBuffer := none }
      else
        Except.error JsError.rangeError

namespace Part000

/-- Translation of handleAsValue of part_000: the guard chain in source
order, from the strict comparisons against undefined and null through the
typeof tests, Array.isArray and the final object test, with the results
starting at the sentinel pair; the string branch encodes the text, stores
the bytes in the handoff slot and reports the byte length; the functor is
applied once, at the end, to the computed pair. -/
def handleAsValue (target : JSValue) (st : GlueState)
    (functor : Int → Int → α) : α × GlueState :=
  let r : (Int × Int) × GlueState :=
    if isUndef target then ((0, 0), st)
    else if isNull target then ((1, 0), st)
    else if jsTypeof target = JsTypeof.number then
      ((2, jsNumberValue target), st)
    else if jsTypeof target = JsTypeof.boolean then
      ((3, if jsBoolValue target then 1 else 0), st)
    else if jsTypeof target = JsTypeof.bigint then
      ((4, numberOfBigInt (jsBigIntValue target)), st)
    else if jsTypeof target = JsTypeof.string then
      let buf := utf8Encode (jsStringValue target)
      ((5, Int.ofNat buf.length), { st with lastStringBuffer := some buf })
    else if isArray target then ((6, 0), st)
    else if jsTypeof target = JsTypeof.object then ((7, 0), st)
    else ((-1, 0), st)
  (functor r.1.1 r.1.2, r.2)

/-- Tag, payload and resulting state of the part_000 classifier, observed
through the pair-building functor. -/
def handleAsValueCore (target : JSValue) (st : GlueState) : (Int × Int) × GlueState :=
  handleAsValue target st Prod.mk

end Part000

namespace Part001

/-- Translation of handleAsValue of part_001: the same guard chain as the
part_000 variant, except that the string branch only sets the tag, leaving
the payload at its starting value and touching no handoff slot (the
fragment has none); the functor is applied once, at the end, to the
computed pair. -/
def handleAsValue (target : JSValue) (functor : Int → Int → α) : α :=
  let r : Int × Int :=
    if isUndef target then (0, 0)
    else if isNull target then (1, 0)
    else if jsTypeof target = JsTypeof.number then
      (2, jsNumberValue target)
    else if jsTypeof target = JsTypeof.boolean then
      (3, if jsBoolValue target then 1 else 0)
    else if jsTypeof target = JsTypeof.bigint then
      (4, numberOfBigInt (jsBigIntValue target))
    else if jsTypeof target = JsTypeof.string then (5, 0)
    else if isArray target then (6, 0)
    else if jsTypeof target = JsTypeof.object then (7, 0)
    else (-1, 0)
  functor r.1 r.2

/-- Tag and payload of the part_001 classifier, observed through the
pair-building functor. -/
def handleAsValueCore (target : JSValue) : Int × Int :=
  handleAsValue target Prod.mk

end Part001

/-- Modelled from the spec: the tag table of section 4.2, written from the
table rows, to be compared with the tags the source classifiers compute.
The two kinds matching no row carry the sentinel. -/
def specTableTag : JSValue → Int
  | JSValue.undef => 0
  | JSValue.null => 1
  | JSValue.num _ => 2
  | JSValue.bool _ => 3
  | JSValue.bigint _ => 4
  | JSValue.str _ => 5
  | JSValue.arr _ => 6
  | JSValue.obj _ => 7
  | JSValue.func => -1
  | JSValue.symbol => -1

/-! Helper lemmas shared by the claim theorems. -/

/-- Reduction of the unsigned shift on a small natural pointer. -/
theorem jsToUint32_ofNat (n : Nat) (h : n < 4294967296) :
    jsToUint32 (n : Int) = n := by
  unfold jsToUint32
  rw [Int.emod_eq_of_lt (by omega) (by omega)]
  rfl

/-- Whenever the staleness check of getUint8Memory0 can resolve the name wasm
(no view cached yet, so the disjunction short-circuits, or a binding of that
name present), the call succeeds and yields a view over the current backing
buffer, the cache recording that identity and no other field changing. -/
theorem getUint8Memory0_of_resolvable (st : GlueState)
    (h : st.cachedUint8Memory0 = none ∨ st.wasmGlobalBound = true) :
    getUint8Memory0 st =
      Except.ok (st.memBufferId, { st with cachedUint8Memory0 := some st.memBufferId }) := by
  obtain ⟨b, c, w, i, d⟩ := st
  rcases h with h | h
  · simp only at h
    subst h
    rfl
  · simp only at h
    subst h
    cases c with
    | none => rfl
    | some cv =>
      by_cases hc : cv = i
      · subst hc
        simp [getUint8Memory0]
      · simp [getUint8Memory0, hc]

/-- Every successful view acquisition returns the identity of the current
backing buffer and leaves the handoff slot, the buffer identity and the
memory bytes unchanged. -/
theorem getUint8Memory0_view_current (st st' : GlueState) (v : Nat)
    (h : getUint8Memory0 st = Except.ok (v, st')) :
    v = st'.memBufferId ∧ st'.memData = st.memData ∧
      st'.lastStringBuffer = st.lastStringBuffer ∧ st'.memBufferId = st.memBufferId := by
  obtain ⟨b, c, w, i, d⟩ := st
  cases c with
  | none =>
    simp only [getUint8Memory0, Except.ok.injEq, Prod.mk.injEq] at h
    obtain ⟨rfl, rfl⟩ := h
    exact ⟨rfl, rfl, rfl, rfl⟩
  | some cv =>
    cases w with
    | false => simp [getUint8Memory0] at h
    | true =>
      by_cases hcv : cv = i
      · subst hcv
        simp only [getUint8Memory0, ne_eq, not_true_eq_false, if_false, if_true,
          Except.ok.injEq, Prod.mk.injEq, reduceIte] at h
        obtain ⟨rfl, rfl⟩ := h
        exact ⟨rfl, rfl, rfl, rfl⟩
      · simp only [getUint8Memory0, ne_eq, hcv, not_false_eq_true, if_true,
          Except.ok.injEq, Prod.mk.injEq, reduceIte] at h
        obtain ⟨rfl, rfl⟩ := h
        exact ⟨rfl, rfl, rfl, rfl⟩

/-- Length of a block write that fits the window. -/
theorem writeBytes_length (data src : List Nat) (ptr : Nat)
    (h : ptr + src.length ≤ data.length) :
    (writeBytes data ptr src).length = data.length := by
  unfold writeBytes
  rw [List.length_append, List.length_append,
    List.length_take_of_le (by omega), List.length_drop]
  omega

/-- Bytes before the written window are unchanged. -/
theorem writeBytes_getElem?_left (data src : List Nat) (ptr j : Nat)
    (h : ptr + src.length ≤ data.length) (hj : j < ptr) :
    (writeBytes data ptr src)[j]? = data[j]? := by
  unfold writeBytes
  have hlen : (data.take ptr).length = ptr := List.length_take_of_le (by omega)
  rw [List.append_assoc, List.getElem?_append_left (by rw [hlen]; exact hj),
    List.getElem?_take_of_lt hj]

/-- Bytes inside the written window come from the source block. -/
theorem writeBytes_getElem?_mid (data src : List Nat) (ptr i : Nat)
    (h : ptr + src.length ≤ data.length) (hi : i < src.length) :
    (writeBytes data ptr src)[ptr + i]? = src[i]? := by
  unfold writeBytes
  have hlen : (data.take ptr).length = ptr := List.length_take_of_le (by omega)
  rw [List.append_assoc, List.getElem?_append_right (by rw [hlen]; omega), hlen]
  have hsub : ptr + i - ptr = i := by omega
  rw [hsub, List.getElem?_append_left hi]

/-- Lower bound of the embedded 0xff mask. -/
theorem jsAnd0xff_nonneg (n : Int) : 0 ≤ jsAnd0xff n :=
  Int.emod_nonneg n (by norm_num)

/-- Upper bound of the embedded 0xff mask. -/
theorem jsAnd0xff_le (n : Int) : jsAnd0xff n ≤ 255 := by
  have hb := Int.emod_lt_of_pos n (show (0 : Int) < 256 by norm_num)
  unfold jsAnd0xff
  omega

/-- Bytes after the written window are unchanged. -/
theorem writeBytes_getElem?_right (data src : List Nat) (ptr j : Nat)
    (h : ptr + src.length ≤ data.length) (hj : ptr + src.length ≤ j) :
    (writeBytes data ptr src)[j]? = data[j]? := by
  unfold writeBytes
  have hlen : (data.take ptr).length = ptr := List.length_take_of_le (by omega)
  rw [List.append_assoc, List.getElem?_append_right (by rw [hlen]; omega), hlen,
    List.getElem?_append_right (by omega), List.getElem?_drop]
  congr 1
  omega

/-! Claim theorems. -/

/-- C1: for every host value, both classifier variants return exactly the tag
of the section 4.2 table — 0 for undefined, 1 for null, 2 for a number, 3 for
a boolean, 4 for a bigint, 5 for a string, 6 for an array, 7 for any other
object — and the sentinel -1 for the two kinds matching none of the
predicates (a function or a symbol); the guard chain of the translation
preserves the stated priority order, and the per-constructor equations show
the categories never overlap. -/
theorem classify_tags_match_spec_table (v : JSValue) (st : GlueState) :
    (Part000.handleAsValueCore v st).1.1 = specTableTag v ∧
      (Part001.handleAsValueCore v).1 = specTableTag v := by
  cases v <;> exact ⟨rfl, rfl⟩

/-- C2: for every string, the part_000 classifier encodes the text to UTF-8,
stores the encoded bytes in the single-slot handoff buffer, and reports as
numeric payload the byte length of that encoding — exactly the number of
bytes the stager would copy, and not the character count, as the closing
concrete conjuncts show on a text of five characters and six bytes. -/
theorem classify_string_reports_utf8_byte_length (s : String) (st : GlueState) :
    Part000.handleAsValueCore (JSValue.str s) st =
      ((5, Int.ofNat (utf8Encode s).length),
        { st with lastStringBuffer := some (utf8Encode s) }) ∧
      (utf8Encode ("héllo")).length = 6 ∧ ("héllo").length = 5 := by
  exact ⟨rfl, rfl, rfl⟩

/-- C5: for every object, getWasmPtr returns the numeric value of the
designated pointer field when that field holds a number, and throws the
NOT_WASM_OBJ error exactly when the field is absent (the lookup yields
undefined) or holds a non-number; the embedding is a pure function of the
object, so neither outcome has a side effect. -/
theorem getWasmPtr_spec (fields : List (String × JSValue)) :
    (getWasmPtr (JSValue.obj fields) =
      match lookupField fields JS_PTR with
      | JSValue.num n => Except.ok n
      | _ => Except.error (JsError.notWasmObject NOT_WASM_OBJ)) ∧
      ((getWasmPtr (JSValue.obj fields) =
          Except.error (JsError.notWasmObject NOT_WASM_OBJ)) ↔
        ¬ ∃ n : Int, lookupField fields JS_PTR = JSValue.num n) := by
  cases h : lookupField fields JS_PTR <;>
    simp [getWasmPtr, jsGetField, h, jsTypeof, jsNumberValue]

/-- C6: for every object, getTypeJs never throws: it returns the type field
reduced modulo 256 (the mask to the low 8 bits) when the field holds a
number, the sentinel 255 when the field is absent or holds a non-number, and
the result always lies in the interval from 0 to 255; the concrete conjunct
checks the value 300 masking to 44. -/
theorem getTypeJs_spec (fields : List (String × JSValue)) :
    (getTypeJs (JSValue.obj fields) =
      Except.ok (match lookupField fields ("type") with
        | JSValue.num n => jsAnd0xff n
        | _ => 255)) ∧
      (0 ≤ match lookupField fields ("type") with
        | JSValue.num n => jsAnd0xff n
        | _ => 255) ∧
      ((match lookupField fields ("type") with
        | JSValue.num n => jsAnd0xff n
        | _ => (255 : Int)) ≤ 255) ∧
      getTypeJs (JSValue.obj [(("type"), JSValue.num 300)]) = Except.ok 44 := by
  refine ⟨?_, ?_, ?_, rfl⟩
  · cases h : lookupField fields ("type") <;>
      simp [getTypeJs, jsGetField, h, jsTypeof, jsNumberValue]
  · cases h : lookupField fields ("type") <;> simp only [h] <;>
      first
        | exact jsAnd0xff_nonneg _
        | norm_num
  · cases h : lookupField fields ("type") <;> simp only [h] <;>
      first
        | exact jsAnd0xff_le _
        | norm_num

/-- C8: both classifier variants are total — their embeddings are total Lean
functions, mirroring source code with no throw site — and every value
receives a tag between the sentinel -1 and 7; a value matching none of the
predicates (a function or a symbol, the only two kinds falling through the
whole chain) keeps the starting sentinel pair of tag -1 and payload 0, the
part_000 variant also leaving its state untouched. -/
theorem classify_total_with_sentinel_fallthrough (v : JSValue) (st : GlueState) :
    (-1 ≤ (Part000.handleAsValueCore v st).1.1 ∧ (Part000.handleAsValueCore v st).1.1 ≤ 7) ∧
      (-1 ≤ (Part001.handleAsValueCore v).1 ∧ (Part001.handleAsValueCore v).1 ≤ 7) ∧
      Part000.handleAsValueCore JSValue.func st = ((-1, 0), st) ∧
      Part000.handleAsValueCore JSValue.symbol st = ((-1, 0), st) ∧
      Part001.handleAsValueCore JSValue.func = (-1, 0) ∧
      Part001.handleAsValueCore JSValue.symbol = (-1, 0) := by
  refine ⟨?_, ?_, rfl, rfl, rfl, rfl⟩ <;>
    cases v <;>
    simp [Part000.handleAsValueCore, Part000.handleAsValue, Part001.handleAsValueCore,
      Part001.handleAsValue, isUndef, isNull, isArray, jsTypeof]

/-- C9: for every value, every state and every completion functor, each
classifier variant applies the functor exactly once, in line, to the pair of
tag and payload it computed — the result of the call is one application of
the functor to that pair, and a trace-collecting functor records exactly one
invocation carrying it. -/
theorem classify_applies_functor_once (α : Type) (v : JSValue) (st : GlueState)
    (f : Int → Int → α) :
    Part000.handleAsValue v st f =
      (f (Part000.handleAsValueCore v st).1.1 (Part000.handleAsValueCore v st).1.2,
        (Part000.handleAsValueCore v st).2) ∧
      Part001.handleAsValue v f =
        f (Part001.handleAsValueCore v).1 (Part001.handleAsValueCore v).2 ∧
      (Part000.handleAsValue v st (fun a b => [(a, b)])).1 =
        [((Part000.handleAsValueCore v st).1.1, (Part000.handleAsValueCore v st).1.2)] ∧
      Part001.handleAsValue v (fun a b => [(a, b)]) =
        [((Part001.handleAsValueCore v).1, (Part001.handleAsValueCore v).2)] := by
  exact ⟨rfl, rfl, rfl, rfl⟩

/-- C10: on every value that is not a string, the two classifier variants
compute the same pair of tag and payload, and the part_000 variant leaves
its state unchanged, so the variants can only differ on string inputs. -/
theorem classifier_variants_agree_off_strings (v : JSValue) (st : GlueState)
    (h : jsTypeof v ≠ JsTypeof.string) :
    (Part000.handleAsValueCore v st).1 = Part001.handleAsValueCore v ∧
      (Part000.handleAsValueCore v st).2 = st := by
  cases v <;> first
    | exact absurd rfl h
    | exact ⟨rfl, rfl⟩

/-- C10 witness: the agreement of the two variants applied at the number 5
from a concrete state. -/
theorem classifier_variants_agree_off_strings_witness :
    jsTypeof (JSValue.num 5) ≠ JsTypeof.string ∧
      ((Part000.handleAsValueCore (JSValue.num 5)
          (GlueState.mk none none false 0 [])).1 =
        Part001.handleAsValueCore (JSValue.num 5) ∧
        (Part000.handleAsValueCore (JSValue.num 5)
          (GlueState.mk none none false 0 [])).2 =
          GlueState.mk none none false 0 []) :=
  ⟨by decide, classifier_variants_agree_off_strings (JSValue.num 5)
    (GlueState.mk none none false 0 []) (by decide)⟩

/-- C3: for every string, every destination offset below 2 ^ 32 and every
state from which the staleness check of the memory view can resolve its
wasm reference (no view cached yet — in particular the load-time state — or
a binding named wasm present; the C7 record covers the scope slip this
hypothesis sidesteps), when the window fits, classifying the string with
the part_000 classifier and then staging it succeeds, writes exactly the
UTF-8 bytes of the string into the window starting at the offset, leaves
every byte outside the window unchanged, preserves the memory length and
clears the handoff buffer. -/
theorem classify_then_fill_writes_utf8 (s : String) (offset : Nat) (st : GlueState)
    (hview : st.cachedUint8Memory0 = none ∨ st.wasmGlobalBound = true)
    (hoff : offset < 4294967296)
    (hfit : offset + (utf8Encode s).length ≤ st.memData.length) :
    ∃ st2 : GlueState,
      fillAsValueString (offset : Int) (Part000.handleAsValueCore (JSValue.str s) st).2 =
        Except.ok st2 ∧
      st2.memData.length = st.memData.length ∧
      (∀ i, i < (utf8Encode s).length → st2.memData[offset + i]? = (utf8Encode s)[i]?) ∧
      (∀ j, j < offset → st2.memData[j]? = st.memData[j]?) ∧
      (∀ j, offset + (utf8Encode s).length ≤ j → st2.memData[j]? = st.memData[j]?) ∧
      st2.lastStringBuffer = none := by
  have hst1 : (Part000.handleAsValueCore (JSValue.str s) st).2 =
      { st with lastStringBuffer := some (utf8Encode s) } := rfl
  have hres := getUint8Memory0_of_resolvable
    { st with lastStringBuffer := some (utf8Encode s) } hview
  refine ⟨{ st with
      lastStringBuffer := none,
      cachedUint8Memory0 := some st.memBufferId,
      memData := writeBytes st.memData offset (utf8Encode s) }, ?_, ?_, ?_, ?_, ?_, rfl⟩
  · rw [hst1]
    simp only [fillAsValueString, hres, jsToUint32_ofNat offset hoff]
    rw [if_pos hfit]
  · exact writeBytes_length st.memData (utf8Encode s) offset hfit
  · intro i hi
    exact writeBytes_getElem?_mid st.memData (utf8Encode s) offset i hfit hi
  · intro j hj
    exact writeBytes_getElem?_left st.memData (utf8Encode s) offset j hfit hj
  · intro j hj
    exact writeBytes_getElem?_right st.memData (utf8Encode s) offset j hfit hj

/-- C3 witness: the theorem applied to the six-byte text of five characters
staged at offset 100 into a fresh 106-byte memory. -/
theorem classify_then_fill_writes_utf8_witness :
    ((GlueState.mk none none false 0 (List.replicate 106 0)).cachedUint8Memory0 = none ∨
      (GlueState.mk none none false 0 (List.replicate 106 0)).wasmGlobalBound = true) ∧
      (100 : Nat) < 4294967296 ∧
      100 + (utf8Encode ("héllo")).length ≤
        (GlueState.mk none none false 0 (List.replicate 106 0)).memData.length ∧
      (∃ st2 : GlueState,
        fillAsValueString ((100 : Nat) : Int)
            (Part000.handleAsValueCore (JSValue.str ("héllo"))
              (GlueState.mk none none false 0 (List.replicate 106 0))).2 =
          Except.ok st2 ∧
        st2.memData.length =
          (GlueState.mk none none false 0 (List.replicate 106 0)).memData.length ∧
        (∀ i, i < (utf8Encode ("héllo")).length →
          st2.memData[100 + i]? = (utf8Encode ("héllo"))[i]?) ∧
        (∀ j, j < 100 → st2.memData[j]? =
          (GlueState.mk none none false 0 (List.replicate 106 0)).memData[j]?) ∧
        (∀ j, 100 + (utf8Encode ("héllo")).length ≤ j → st2.memData[j]? =
          (GlueState.mk none none false 0 (List.replicate 106 0)).memData[j]?) ∧
        st2.lastStringBuffer = none) :=
  ⟨Or.inl rfl, by norm_num, by decide,
    classify_then_fill_writes_utf8 ("héllo") 100
      (GlueState.mk none none false 0 (List.replicate 106 0))
      (Or.inl rfl) (by norm_num) (by decide)⟩

/-- C4: the part_000 stager does clear the handoff buffer after a successful
copy, and a second immediate call does fail — but from the states the
repository can actually reach (no binding named wasm in scope) the second
call dies in the staleness check of getUint8Memory0 with a ReferenceError,
before the empty-buffer fault the claim names can occur; the final conjunct
shows the claimed NoBufferedString failure, which requires a wasm binding
to be present so that the staleness check can run at all. -/
theorem fillAsValueString_second_call_behaviour :
    fillAsValueString 0 (GlueState.mk (some [97]) none false 5 [9, 9, 9]) =
      Except.ok (GlueState.mk none (some 5) false 5 [97, 9, 9]) ∧
      fillAsValueString 0 (GlueState.mk none (some 5) false 5 [97, 9, 9]) =
        Except.error JsError.referenceErrorWasm ∧
      fillAsValueString 0 (GlueState.mk none (some 5) true 5 [97, 9, 9]) =
        Except.error JsError.noBufferedString :=
  ⟨rfl, rfl, rfl⟩

/-- C7: the first acquisition of the memory view succeeds and caches it, but
the very next call fails: once a view is cached, the staleness comparison
reads the free variable named wasm, which no scope of the repository
declares (the let declaration of that name sits inside the if body, after
the condition), so repeated calls throw a ReferenceError instead of
yielding a view; the last two conjuncts show the behaviour the claim
describes — idempotent success, and a rebuild exactly when the backing
identity changed — once a wasm binding for the module is present. -/
theorem getUint8Memory0_repeated_call_behaviour :
    getUint8Memory0 (GlueState.mk none none false 3 [1, 2]) =
      Except.ok (3, GlueState.mk none (some 3) false 3 [1, 2]) ∧
      getUint8Memory0 (GlueState.mk none (some 3) false 3 [1, 2]) =
        Except.error JsError.referenceErrorWasm ∧
      getUint8Memory0 (GlueState.mk none (some 3) true 3 [1, 2]) =
        Except.ok (3, GlueState.mk none (some 3) true 3 [1, 2]) ∧
      getUint8Memory0 (GlueState.mk none (some 3) true 7 [1, 2, 4]) =
        Except.ok (7, GlueState.mk none (some 7) true 7 [1, 2, 4]) :=
  ⟨rfl, rfl, rfl, rfl⟩
